import Mathlib

/-!
Verification model of the LuxCoreRender `LightCPURenderEngine`
(`src/slg/engines/lightcpu/lightcpu.cpp`) and of the auto-linear tone map
(`src/slg/film/imagepipeline/plugins/tonemaps/autolinear.cpp`).

Machine floats of the C++ source are modelled by `ℚ` for the configuration
values (where only exact literals such as `5`, `3`, `0.5`, `0` occur) and by
`ℝ` for the tone-map arithmetic (where a transcendental power appears).
-/

namespace Slg

/-- Modelled from the spec: the string-keyed property bag of
`luxrays::Properties` (not under src/), restricted to the configuration keys
recognized by the light-tracing engine (§6 of the spec).  Each field is the
optional value of one key; `none` means the key is not defined.  The field
`samplerCompatibleNoTile` abstracts the sampler-related keys consulted by
`CheckSamplersForNoTile` (also not under src/): `true` iff the configured
sampler is compatible with a non-tiled, continuously accumulating engine. -/
structure Properties where
  renderEngineType : Option String
  lightMaxDepth : Option Int
  lightRRDepth : Option Int
  lightRRCap : Option ℚ
  clampVarianceMaxValue : Option ℚ
  clampRadianceMaxValue : Option ℚ
  samplerCompatibleNoTile : Bool
  deriving DecidableEq

/-- Modelled from the spec: `luxrays::Properties::Get(const Property &d)`
(not under src/) returns the stored value of the key when the bag defines
it and the supplied default property `d` otherwise. -/
def propGet {α : Type} (stored : Option α) (d : α) : α :=
  stored.getD d

/-- The engine parameters resolved by `LightCPURenderEngine::StartLockLess`
(lightcpu.cpp lines 64-73). -/
structure EngineParams where
  maxPathDepth : Int
  rrDepth : Int
  rrImportanceCap : ℚ
  sqrtVarianceClampMaxValue : ℚ
  deriving DecidableEq

/-- `LightCPURenderEngine::GetDefaultProps` (lightcpu.cpp lines 129-139),
restricted to the keys of this engine: `renderengine.type = LIGHTCPU`,
`light.maxdepth = 5`, `light.russianroulette.depth = 3`,
`light.russianroulette.cap = 0.5`, `path.clamping.variance.maxvalue = 0`.
The base-engine defaults merged in by `CPUNoTileRenderEngine::GetDefaultProps`
concern keys outside this model. -/
def getDefaultProps : Properties :=
  ⟨some "LIGHTCPU", some 5, some 3, some (1/2), some 0, none, true⟩

/-- Resolution of `sqrtVarianceClampMaxValue` in
`LightCPURenderEngine::StartLockLess` (lightcpu.cpp lines 68-73): first read
the legacy key `path.clamping.radiance.maxvalue` with inline default `0`;
then, if `path.clamping.variance.maxvalue` is defined, read it instead (its
default from `GetDefaultProps` is irrelevant because the key is defined);
finally clamp with `Max(0.f, ·)`. -/
def resolveSqrtVarianceClamp (cfg : Properties) : ℚ :=
  let v0 : ℚ := propGet cfg.clampRadianceMaxValue 0
  let v1 : ℚ :=
    if cfg.clampVarianceMaxValue.isSome then propGet cfg.clampVarianceMaxValue 0
    else v0
  max 0 v1

/-- The parameter intake of `LightCPURenderEngine::StartLockLess`
(lightcpu.cpp lines 64-73).  The defaults `5`, `3`, `0.5` are the values the
source fetches from `GetDefaultProps()` for the keys `light.maxdepth`,
`light.russianroulette.depth` and `light.russianroulette.cap`. -/
def resolveParams (cfg : Properties) : EngineParams :=
  ⟨propGet cfg.lightMaxDepth (propGet getDefaultProps.lightMaxDepth 5),
   propGet cfg.lightRRDepth (propGet getDefaultProps.lightRRDepth 3),
   propGet cfg.lightRRCap (propGet getDefaultProps.lightRRCap (1/2)),
   resolveSqrtVarianceClamp cfg⟩

/-- `LightCPURenderEngine::ToProperties` (lightcpu.cpp lines 116-123): it
emits `renderengine.type`, `light.maxdepth`, `light.russianroulette.depth`
and `light.russianroulette.cap` (each as the configured value when defined,
else the default), and appends `CPUNoTileRenderEngine::ToProperties(cfg)`
and `Sampler::ToProperties(cfg)`.  Modelled from the spec: those two base
translations (not under src/) cover only the inherited base-engine and
sampler keys (§6), here abstracted by passing `samplerCompatibleNoTile`
through; neither emits the `path.clamping.*` keys, and neither does the
visible LightCPU code, so the output leaves both clamping keys undefined. -/
def toProperties (cfg : Properties) : Properties :=
  ⟨some (propGet cfg.renderEngineType (propGet getDefaultProps.renderEngineType "LIGHTCPU")),
   some (propGet cfg.lightMaxDepth (propGet getDefaultProps.lightMaxDepth 5)),
   some (propGet cfg.lightRRDepth (propGet getDefaultProps.lightRRDepth 3)),
   some (propGet cfg.lightRRCap (propGet getDefaultProps.lightRRCap (1/2))),
   none,
   none,
   cfg.samplerCompatibleNoTile⟩

/-- Modelled from the spec: the variants of the `slg::Camera::CameraType`
enumeration (not under src/); the source checks only whether the type is
`STEREO`, the other variants are the remaining camera kinds. -/
inductive CameraType
  | perspective
  | orthographic
  | environment
  | stereo
  deriving DecidableEq

/-- The slice of `slg::RenderConfig` (not under src/) the engine reads:
the camera type, the scene light-group count
(`scene->lightDefs.GetLightGroupCount()`) and the property bag `cfg`. -/
structure RenderConfigModel where
  cameraType : CameraType
  lightGroupCount : Nat
  cfg : Properties
  deriving DecidableEq

/-- Modelled from the spec: a `slg::RenderState` value (class not under
src/) is the pair of the engine type tag and, for `LightCPURenderState`, the
bootstrap seed it snapshots. -/
structure RenderState where
  engineTag : String
  bootStrapSeed : Nat
  deriving DecidableEq

/-- The object tag of the light-tracing engine
(`LightCPURenderEngine::GetObjectTag()`). -/
def lightCPUTag : String := "LIGHTCPU"

/-- The mutable engine fields the visible source reads and writes:
the resolved parameters, the bootstrap seed (`RenderEngine::bootStrapSeed`),
the pending render state `startRenderState` and the flag `hasStartFilm`. -/
structure EngineState where
  params : EngineParams
  bootStrapSeed : Nat
  startRenderState : Option RenderState
  hasStartFilm : Bool
  deriving DecidableEq

/-- The failures `StartLockLess` can raise. -/
inductive StartError
  | incompatibleSampler
  | renderStateTypeMismatch
  deriving DecidableEq

/-- The constructor failure: an unsupported (stereo) camera. -/
inductive ConstructError
  | unsupportedStereoCamera
  deriving DecidableEq

/-- `LightCPURenderEngine::LightCPURenderEngine` (lightcpu.cpp lines 29-33):
throws when the camera type is `STEREO`, otherwise constructs the engine
(here: the engine state with the base-supplied fresh bootstrap seed, no
pending render state, and parameters still at their defaults until
`StartLockLess` resolves them). -/
def lightCPUConstruct (rcfg : RenderConfigModel) (freshSeed : Nat) :
    Except ConstructError EngineState :=
  if rcfg.cameraType = CameraType.stereo then
    Except.error ConstructError.unsupportedStereoCamera
  else
    Except.ok ⟨resolveParams getDefaultProps, freshSeed, none, false⟩

/-- Decides whether an `Except` is a success. -/
def exceptIsOk {ε α : Type} : Except ε α → Bool
  | Except.ok _ => true
  | Except.error _ => false

/-- `LightCPURenderEngine::GetRenderState` (lightcpu.cpp lines 47-49):
returns `new LightCPURenderState(bootStrapSeed)` — a snapshot of the current
bootstrap seed tagged with this engine's tag — and leaves the engine state
unmodified (the pair's second component is the unchanged state). -/
def getRenderState (e : EngineState) : RenderState × EngineState :=
  (⟨lightCPUTag, e.bootStrapSeed⟩, e)

/-- Modelled from the spec: `slg::RenderState::CheckEngineTag` (not under
src/) fails with a type-mismatch error when the stored tag differs from the
given one. -/
def checkEngineTag (rs : RenderState) (tag : String) : Except StartError Unit :=
  if rs.engineTag = tag then Except.ok () else Except.error StartError.renderStateTypeMismatch

/-- `LightCPURenderEngine::StartLockLess` (lightcpu.cpp lines 51-103):
checks the sampler, resolves the engine parameters, and consumes a pending
render state when one exists (checking its engine tag, taking the stored
seed plus one as the new bootstrap seed via `SetSeed`, deleting the state
and setting `hasStartFilm`), else keeps the fresh seed and clears
`hasStartFilm`.  Modelled from the spec: `RenderEngine::SetSeed` (not under
src/) stores the given value as the run's bootstrap seed.  Note on line 83
of the source: the pending state is cast to `LightCPURenderEngine *` — the
wrong type, the object is a `LightCPURenderState` — before its
`bootStrapSeed` field is read; the read is modelled here by the stored seed
of the render state, which is the evident intent of the surrounding code
(the tag check on line 81, the comment and log message on lines 85-87). -/
def startLockLess (cfg : Properties) (e : EngineState) : Except StartError EngineState :=
  if cfg.samplerCompatibleNoTile = false then Except.error StartError.incompatibleSampler
  else
    match e.startRenderState with
    | some rs =>
      match checkEngineTag rs lightCPUTag with
      | Except.error err => Except.error err
      | Except.ok _ =>
        Except.ok ⟨resolveParams cfg, rs.bootStrapSeed + 1, none, true⟩
    | none =>
      Except.ok ⟨resolveParams cfg, e.bootStrapSeed, none, false⟩

/-- One suspend/resume cycle: snapshot the running engine's state with
`GetRenderState`, hand the snapshot to a new engine as its pending
`startRenderState`, and run `StartLockLess`. -/
def resumeCycle (cfg : Properties) (e : EngineState) : Except StartError EngineState :=
  startLockLess cfg ⟨e.params, e.bootStrapSeed, some (getRenderState e).1, e.hasStartFilm⟩

/-- `n` suspend/resume cycles in sequence. -/
def iterResume (cfg : Properties) : Nat → EngineState → Except StartError EngineState
  | 0, e => Except.ok e
  | n + 1, e =>
    match resumeCycle cfg e with
    | Except.error err => Except.error err
    | Except.ok e2 => iterResume cfg n e2

/-- An RGB colour triple, the model of `luxrays::Spectrum`. -/
structure Spectrum where
  r : ℝ
  g : ℝ
  b : ℝ

/-- Modelled from the spec: `luxrays::Spectrum::Y()` (not under src/), the
luminance of an RGB triple with the Rec. 709 weights
`0.212671 R + 0.715160 G + 0.072169 B`. -/
noncomputable def Spectrum.lumY (s : Spectrum) : ℝ :=
  0.212671 * s.r + 0.715160 * s.g + 0.072169 * s.b

/-- `pixels[i] = scale * pixels[i]` (autolinear.cpp line 114): componentwise
scaling of a colour triple. -/
noncomputable def Spectrum.scaleBy (k : ℝ) (s : Spectrum) : Spectrum :=
  ⟨k * s.r, k * s.g, k * s.b⟩

/-- One plugin of the film's image pipeline: the gamma-correction plugin
carrying its `gamma` value, or any other plugin kind. -/
inductive ImagePipelinePlugin
  | gammaCorrection (gamma : ℝ)
  | otherPlugin (idx : Nat)

/-- The film's post-process image pipeline: its ordered plugin list. -/
structure ImagePipeline where
  plugins : List ImagePipelinePlugin

/-- `ImagePipeline::GetPlugin(typeid(GammaCorrectionPlugin))` (used at
autolinear.cpp line 62): the first gamma-correction plugin of the pipeline,
if any, returned through its gamma value. -/
def ImagePipeline.getGammaPlugin (ip : ImagePipeline) : Option ℝ :=
  ip.plugins.findSome? fun p =>
    match p with
    | ImagePipelinePlugin.gammaCorrection g => some g
    | ImagePipelinePlugin.otherPlugin _ => none

/-- The film channel kinds the engine registers. -/
inductive FilmChannel
  | radiancePerPixelNormalized
  | radiancePerScreenNormalized
  | otherChannel (idx : Nat)
  deriving DecidableEq

/-- Modelled from the spec: the slice of `slg::Film` (not under src/) that
the visible code touches — the registered channel kinds, the
overlapped-screen-buffer-update flag, the radiance group count, the
initialized flag, the optional image pipeline, the RGB tonemapped pixel
buffer (`channel_RGB_TONEMAPPED`, indexed over `width*height` pixels,
modelled by the list of pixel triples) and the per-pixel validity mask
(`channel_FRAMEBUFFER_MASK`). -/
structure Film where
  channels : List FilmChannel
  overlappedScreenBufferUpdate : Bool
  radianceGroupCount : Nat
  initialized : Bool
  imagePipeline : Option ImagePipeline
  rgbTonemapped : List Spectrum
  frameBufferMask : List Bool

/-- Modelled from the spec: `Film::AddChannel` (not under src/) registers a
channel kind on the film. -/
def Film.addChannel (f : Film) (c : FilmChannel) : Film :=
  ⟨f.channels ++ [c], f.overlappedScreenBufferUpdate, f.radianceGroupCount,
   f.initialized, f.imagePipeline, f.rgbTonemapped, f.frameBufferMask⟩

/-- Modelled from the spec: `Film::SetOverlappedScreenBufferUpdateFlag`
(not under src/) sets the overlapped-update flag. -/
def Film.setOverlappedScreenBufferUpdateFlag (f : Film) (b : Bool) : Film :=
  ⟨f.channels, b, f.radianceGroupCount, f.initialized, f.imagePipeline,
   f.rgbTonemapped, f.frameBufferMask⟩

/-- Modelled from the spec: `Film::SetRadianceGroupCount` (not under src/)
sets the number of radiance groups. -/
def Film.setRadianceGroupCount (f : Film) (n : Nat) : Film :=
  ⟨f.channels, f.overlappedScreenBufferUpdate, n, f.initialized,
   f.imagePipeline, f.rgbTonemapped, f.frameBufferMask⟩

/-- Modelled from the spec: `Film::Init` (not under src/) initializes the
film. -/
def Film.filmInit (f : Film) : Film :=
  ⟨f.channels, f.overlappedScreenBufferUpdate, f.radianceGroupCount, true,
   f.imagePipeline, f.rgbTonemapped, f.frameBufferMask⟩

/-- `LightCPURenderEngine::InitFilm` (lightcpu.cpp lines 39-45): adds the
per-pixel-normalized and the per-screen-normalized radiance channels, turns
on the overlapped screen-buffer-update flag, sets the radiance group count
to the scene's light-group count, and initializes the film. -/
def initFilm (rcfg : RenderConfigModel) (f : Film) : Film :=
  Film.filmInit
    (Film.setRadianceGroupCount
      (Film.setOverlappedScreenBufferUpdateFlag
        (Film.addChannel (Film.addChannel f FilmChannel.radiancePerPixelNormalized)
          FilmChannel.radiancePerScreenNormalized)
        true)
      rcfg.lightGroupCount)

/-- The pixel at index `i` of the film's RGB tonemapped buffer (black when
out of range, which the source never is). -/
noncomputable def filmPixel (f : Film) (i : Nat) : Spectrum :=
  f.rgbTonemapped.getD i ⟨0, 0, 0⟩

/-- The validity-mask entry at pixel index `i`
(`film.channel_FRAMEBUFFER_MASK->GetPixel(i)`). -/
def filmMask (f : Film) (i : Nat) : Bool :=
  f.frameBufferMask.getD i false

/-- The film's pixel count `width * height`, the length of the pixel
buffer in this model. -/
def pixelCount (f : Film) : Nat :=
  f.rgbTonemapped.length

/-- `AutoLinearToneMap::GetGammaCorrectionValue` (autolinear.cpp lines
58-68): `2.2` unless the film has an image pipeline containing a
gamma-correction plugin, whose `gamma` is then used. -/
noncomputable def getGammaCorrectionValue (f : Film) : ℝ :=
  match f.imagePipeline with
  | none => 2.2
  | some ip =>
    match ip.getGammaPlugin with
    | none => 2.2
    | some g => g

/-- `AutoLinearToneMap::CalcLinearToneMapScale` (autolinear.cpp lines
70-77): `1.25 / Y * (118/255)^gamma`. -/
noncomputable def calcLinearToneMapScale (f : Film) (Y : ℝ) : ℝ :=
  1.25 / Y * (118 / 255 : ℝ) ^ getGammaCorrectionValue f

/-- The accumulation loop of `AutoLinearToneMap::Apply` (autolinear.cpp
lines 87-97): sum the luminance of every pixel whose mask is set, skipping
samples with non-positive luminance (the source also skips `isinf`
samples, a guard with no counterpart over `ℝ`, where no value is
infinite), then divide by the total pixel count. -/
noncomputable def computeAutoLinearY (f : Film) : ℝ :=
  (∑ i ∈ Finset.range (pixelCount f),
      if filmMask f i = true ∧ 0 < (filmPixel f i).lumY then (filmPixel f i).lumY else 0) /
    (pixelCount f : ℝ)

/-- `AutoLinearToneMap::Apply` (autolinear.cpp lines 83-116): compute `Y`;
return the film unchanged when `Y <= 0`; otherwise multiply every pixel
whose mask is set by `CalcLinearToneMapScale(film, Y)` and leave every
other pixel untouched. -/
noncomputable def autoLinearApply (f : Film) : Film :=
  if computeAutoLinearY f ≤ 0 then f
  else
    ⟨f.channels, f.overlappedScreenBufferUpdate, f.radianceGroupCount,
     f.initialized, f.imagePipeline,
     (List.range (pixelCount f)).map fun i =>
       if filmMask f i = true then
         Spectrum.scaleBy (calcLinearToneMapScale f (computeAutoLinearY f)) (filmPixel f i)
       else filmPixel f i,
     f.frameBufferMask⟩

/-- A pixel index is valid when its mask is set and its luminance is
positive (and finite, which is automatic over `ℝ`). -/
def validPixel (f : Film) (i : Nat) : Prop :=
  filmMask f i = true ∧ 0 < (filmPixel f i).lumY

/-- Validity of a pixel is a (classically) decidable predicate. -/
noncomputable instance validPixelDecidable (f : Film) (i : Nat) :
    Decidable (validPixel f i) :=
  Classical.propDecidable _

/-- Written from the spec's words, for comparison with the source's
`computeAutoLinearY`: the average luminance over the valid pixels, i.e. the
sum of their luminances divided by the number of valid pixels. -/
noncomputable def specAvgValidLuminance (f : Film) : ℝ :=
  (∑ i ∈ Finset.range (pixelCount f),
      if validPixel f i then (filmPixel f i).lumY else 0) /
    (((Finset.range (pixelCount f)).filter fun i => validPixel f i).card : ℝ)

end Slg

/-- Any successful `StartLockLess` stores exactly the parameters resolved
from the configuration. -/
theorem Slg.startLockLess_params (cfg : Slg.Properties) (e e2 : Slg.EngineState)
    (h : Slg.startLockLess cfg e = Except.ok e2) :
    e2.params = Slg.resolveParams cfg := by
  unfold Slg.startLockLess at h
  split at h
  · exact Except.noConfusion h
  · split at h
    · split at h
      · exact Except.noConfusion h
      · cases h
        rfl
    · cases h
      rfl

/-- C6: at Start, the engine parameters `maxPathDepth`, `rrDepth` and
`rrImportanceCap` are read from the configuration keys `light.maxdepth`,
`light.russianroulette.depth` and `light.russianroulette.cap`, and an absent
key yields the default value `5`, `3` and `0.5` respectively. -/
theorem Slg.lightcpu_engine_param_defaults (cfg : Slg.Properties)
    (e e2 : Slg.EngineState) (h : Slg.startLockLess cfg e = Except.ok e2) :
    e2.params.maxPathDepth = cfg.lightMaxDepth.getD 5 ∧
    e2.params.rrDepth = cfg.lightRRDepth.getD 3 ∧
    e2.params.rrImportanceCap = cfg.lightRRCap.getD (1/2) ∧
    (cfg.lightMaxDepth = none → e2.params.maxPathDepth = 5) ∧
    (cfg.lightRRDepth = none → e2.params.rrDepth = 3) ∧
    (cfg.lightRRCap = none → e2.params.rrImportanceCap = 1/2) := by
  have hp := Slg.startLockLess_params cfg e e2 h
  rw [hp]
  refine ⟨rfl, rfl, rfl, ?_, ?_, ?_⟩ <;> intro hnone <;>
    simp [Slg.resolveParams, Slg.propGet, Slg.getDefaultProps, hnone]

/-- Witness for C6 at the empty configuration: all three parameters take
their defaults. -/
theorem Slg.lightcpu_engine_param_defaults_witness :
    (⟨⟨5, 3, 1/2, 0⟩, 7, none, false⟩ : Slg.EngineState).params.maxPathDepth = 5 ∧
    (⟨⟨5, 3, 1/2, 0⟩, 7, none, false⟩ : Slg.EngineState).params.rrDepth = 3 ∧
    (⟨⟨5, 3, 1/2, 0⟩, 7, none, false⟩ : Slg.EngineState).params.rrImportanceCap = 1/2 ∧
    (Option.none = (none : Option Int) →
      (⟨⟨5, 3, 1/2, 0⟩, 7, none, false⟩ : Slg.EngineState).params.maxPathDepth = 5) ∧
    (Option.none = (none : Option Int) →
      (⟨⟨5, 3, 1/2, 0⟩, 7, none, false⟩ : Slg.EngineState).params.rrDepth = 3) ∧
    (Option.none = (none : Option ℚ) →
      (⟨⟨5, 3, 1/2, 0⟩, 7, none, false⟩ : Slg.EngineState).params.rrImportanceCap = 1/2) :=
  Slg.lightcpu_engine_param_defaults ⟨none, none, none, none, none, none, true⟩
    ⟨⟨5, 3, 1/2, 0⟩, 7, none, false⟩ ⟨⟨5, 3, 1/2, 0⟩, 7, none, false⟩ (by rfl)

/-- C4: at Start, the resolved `sqrtVarianceClampMaxValue` is the value of
`path.clamping.variance.maxvalue` when that key is defined, otherwise the
value of the legacy `path.clamping.radiance.maxvalue` (defaulting to `0`
when neither is present), and the stored result is clamped to be
non-negative. -/
theorem Slg.lightcpu_variance_clamp_resolution (cfg : Slg.Properties)
    (e e2 : Slg.EngineState) (h : Slg.startLockLess cfg e = Except.ok e2) :
    e2.params.sqrtVarianceClampMaxValue =
      max 0 (match cfg.clampVarianceMaxValue with
             | some v => v
             | none => cfg.clampRadianceMaxValue.getD 0) ∧
    0 ≤ e2.params.sqrtVarianceClampMaxValue := by
  have hp := Slg.startLockLess_params cfg e e2 h
  rw [hp]
  constructor
  · cases hv : cfg.clampVarianceMaxValue <;>
      simp [Slg.resolveParams, Slg.resolveSqrtVarianceClamp, Slg.propGet, hv]
  · simp only [Slg.resolveParams, Slg.resolveSqrtVarianceClamp]
    exact le_max_left _ _

/-- Witness for C4: with only the legacy key defined, and negative, the
stored clamp value is `max 0 (-3) = 0`. -/
theorem Slg.lightcpu_variance_clamp_resolution_witness :
    (⟨⟨5, 3, 1/2, 0⟩, 7, none, false⟩ : Slg.EngineState).params.sqrtVarianceClampMaxValue =
      max 0 (Option.getD (some (-3 : ℚ)) 0) ∧
    (0 : ℚ) ≤ (⟨⟨5, 3, 1/2, 0⟩, 7, none, false⟩ : Slg.EngineState).params.sqrtVarianceClampMaxValue :=
  Slg.lightcpu_variance_clamp_resolution ⟨none, none, none, none, none, some (-3), true⟩
    ⟨⟨5, 3, 1/2, 0⟩, 7, none, false⟩ ⟨⟨5, 3, 1/2, 0⟩, 7, none, false⟩ (by rfl)

/-- C5: at Start, a pending render state has its engine tag checked (a
mismatch fails with the type-mismatch error and the engine does not start),
the consumed state is discarded (the resulting `startRenderState` is
`none`) and `hasStartFilm` is set to `true`; with no pending state,
`hasStartFilm` is set to `false` and the fresh bootstrap seed is kept
unchanged. -/
theorem Slg.lightcpu_start_renderstate_handling (cfg : Slg.Properties)
    (e : Slg.EngineState) (rs : Slg.RenderState)
    (hs : cfg.samplerCompatibleNoTile = true) :
    (e.startRenderState = some rs → rs.engineTag ≠ Slg.lightCPUTag →
      Slg.startLockLess cfg e = Except.error Slg.StartError.renderStateTypeMismatch) ∧
    (e.startRenderState = some rs → rs.engineTag = Slg.lightCPUTag →
      Slg.startLockLess cfg e =
        Except.ok ⟨Slg.resolveParams cfg, rs.bootStrapSeed + 1, none, true⟩) ∧
    (e.startRenderState = none →
      Slg.startLockLess cfg e =
        Except.ok ⟨Slg.resolveParams cfg, e.bootStrapSeed, none, false⟩) := by
  refine ⟨fun h1 h2 => ?_, fun h1 h2 => ?_, fun h1 => ?_⟩
  · simp [Slg.startLockLess, Slg.checkEngineTag, hs, h1, h2]
  · simp [Slg.startLockLess, Slg.checkEngineTag, hs, h1, h2]
  · simp [Slg.startLockLess, Slg.checkEngineTag, hs, h1]

/-- Witness for C5: the three branches at concrete inputs — a state tagged
`PATHCPU` is rejected, a state tagged `LIGHTCPU` with seed `3` is consumed
and yields seed `3 + 1` with `hasStartFilm`, and no state keeps seed `7`
without `hasStartFilm`. -/
theorem Slg.lightcpu_start_renderstate_handling_witness :
    Slg.startLockLess ⟨none, none, none, none, none, none, true⟩
        ⟨⟨5, 3, 1/2, 0⟩, 7, some ⟨"PATHCPU", 3⟩, false⟩ =
      Except.error Slg.StartError.renderStateTypeMismatch ∧
    Slg.startLockLess ⟨none, none, none, none, none, none, true⟩
        ⟨⟨5, 3, 1/2, 0⟩, 7, some ⟨"LIGHTCPU", 3⟩, false⟩ =
      Except.ok ⟨Slg.resolveParams ⟨none, none, none, none, none, none, true⟩, 3 + 1, none, true⟩ ∧
    Slg.startLockLess ⟨none, none, none, none, none, none, true⟩
        ⟨⟨5, 3, 1/2, 0⟩, 7, none, false⟩ =
      Except.ok ⟨Slg.resolveParams ⟨none, none, none, none, none, none, true⟩, 7, none, false⟩ :=
  ⟨(Slg.lightcpu_start_renderstate_handling ⟨none, none, none, none, none, none, true⟩
      ⟨⟨5, 3, 1/2, 0⟩, 7, some ⟨"PATHCPU", 3⟩, false⟩ ⟨"PATHCPU", 3⟩ rfl).1 rfl (by decide),
   (Slg.lightcpu_start_renderstate_handling ⟨none, none, none, none, none, none, true⟩
      ⟨⟨5, 3, 1/2, 0⟩, 7, some ⟨"LIGHTCPU", 3⟩, false⟩ ⟨"LIGHTCPU", 3⟩ rfl).2.1 rfl rfl,
   (Slg.lightcpu_start_renderstate_handling ⟨none, none, none, none, none, none, true⟩
      ⟨⟨5, 3, 1/2, 0⟩, 7, none, false⟩ ⟨"LIGHTCPU", 0⟩ rfl).2.2 rfl⟩

/-- C3: constructing the engine with a stereo camera always fails with the
unsupported-camera error and produces no engine state; with any non-stereo
camera construction always succeeds. -/
theorem Slg.lightcpu_construct_stereo_rejection (rcfg : Slg.RenderConfigModel)
    (freshSeed : Nat) :
    (rcfg.cameraType = Slg.CameraType.stereo →
      Slg.lightCPUConstruct rcfg freshSeed =
        Except.error Slg.ConstructError.unsupportedStereoCamera) ∧
    (rcfg.cameraType ≠ Slg.CameraType.stereo →
      Slg.exceptIsOk (Slg.lightCPUConstruct rcfg freshSeed) = true) := by
  refine ⟨fun h => ?_, fun h => ?_⟩ <;>
    simp [Slg.lightCPUConstruct, Slg.exceptIsOk, h]

/-- Witness for C3: a stereo camera is rejected, a perspective camera is
accepted. -/
theorem Slg.lightcpu_construct_stereo_rejection_witness :
    Slg.lightCPUConstruct
        ⟨Slg.CameraType.stereo, 1, ⟨none, none, none, none, none, none, true⟩⟩ 131 =
      Except.error Slg.ConstructError.unsupportedStereoCamera ∧
    Slg.exceptIsOk (Slg.lightCPUConstruct
        ⟨Slg.CameraType.perspective, 1, ⟨none, none, none, none, none, none, true⟩⟩ 131) = true :=
  ⟨(Slg.lightcpu_construct_stereo_rejection
      ⟨Slg.CameraType.stereo, 1, ⟨none, none, none, none, none, none, true⟩⟩ 131).1 rfl,
   (Slg.lightcpu_construct_stereo_rejection
      ⟨Slg.CameraType.perspective, 1, ⟨none, none, none, none, none, none, true⟩⟩ 131).2
      (by decide)⟩

/-- One suspend/resume cycle succeeds and advances the bootstrap seed by
exactly one (under the intended reading of the seed restore, see
`Slg.startLockLess`). -/
theorem Slg.resumeCycle_ok (cfg : Slg.Properties)
    (hs : cfg.samplerCompatibleNoTile = true) (e : Slg.EngineState) :
    Slg.resumeCycle cfg e =
      Except.ok ⟨Slg.resolveParams cfg, e.bootStrapSeed + 1, none, true⟩ := by
  simp [Slg.resumeCycle, Slg.startLockLess, Slg.getRenderState, Slg.checkEngineTag, hs]

/-- C2 (intended semantics; the source at lightcpu.cpp line 83 casts the
pending `RenderState` pointer to `LightCPURenderEngine *`, the wrong type —
see the note on `Slg.startLockLess`): `GetRenderState` snapshots the current
bootstrap seed without modifying the engine, and `n + 1` suspend/resume
cycles starting from seed `s` advance the seed step by step to
`s + (n + 1)`, with no repeat and no gap. -/
theorem Slg.lightcpu_seed_progression (cfg : Slg.Properties)
    (hs : cfg.samplerCompatibleNoTile = true) (n : Nat) (e : Slg.EngineState) :
    (Slg.getRenderState e).2 = e ∧
    (Slg.getRenderState e).1.bootStrapSeed = e.bootStrapSeed ∧
    Slg.iterResume cfg (n + 1) e =
      Except.ok ⟨Slg.resolveParams cfg, e.bootStrapSeed + (n + 1), none, true⟩ := by
  refine ⟨rfl, rfl, ?_⟩
  induction n generalizing e with
  | zero =>
    simp [Slg.iterResume, Slg.resumeCycle_ok cfg hs e]
  | succ n ih =>
    have step : Slg.iterResume cfg (n + 1 + 1) e =
        Slg.iterResume cfg (n + 1) ⟨Slg.resolveParams cfg, e.bootStrapSeed + 1, none, true⟩ := by
      simp [Slg.iterResume, Slg.resumeCycle_ok cfg hs e]
    rw [step, ih]
    have harith : e.bootStrapSeed + 1 + (n + 1) = e.bootStrapSeed + (n + 1 + 1) := by omega
    simp [harith]

/-- Witness for C2: three resume cycles from seed `7` end at seed `7 + 3`,
and the snapshot itself neither changes the engine nor the seed. -/
theorem Slg.lightcpu_seed_progression_witness :
    (Slg.getRenderState ⟨⟨5, 3, 1/2, 0⟩, 7, none, false⟩).2 =
      ⟨⟨5, 3, 1/2, 0⟩, 7, none, false⟩ ∧
    (Slg.getRenderState ⟨⟨5, 3, 1/2, 0⟩, 7, none, false⟩).1.bootStrapSeed = 7 ∧
    Slg.iterResume ⟨none, none, none, none, none, none, true⟩ 3
        ⟨⟨5, 3, 1/2, 0⟩, 7, none, false⟩ =
      Except.ok ⟨Slg.resolveParams ⟨none, none, none, none, none, none, true⟩, 7 + 3, none, true⟩ :=
  Slg.lightcpu_seed_progression ⟨none, none, none, none, none, none, true⟩ rfl 2
    ⟨⟨5, 3, 1/2, 0⟩, 7, none, false⟩

/-- C1 (amended): the round trip through `ToProperties` reproduces the
effective `maxPathDepth`, `rrDepth` and `rrImportanceCap` and the engine
type for every configuration, but `ToProperties` does not serialize the
`path.clamping.*` keys, so the round-tripped effective
`sqrtVarianceClampMaxValue` is always `0`. -/
theorem Slg.lightcpu_toProperties_roundtrip_amended (cfg : Slg.Properties) :
    (Slg.resolveParams (Slg.toProperties cfg)).maxPathDepth =
      (Slg.resolveParams cfg).maxPathDepth ∧
    (Slg.resolveParams (Slg.toProperties cfg)).rrDepth =
      (Slg.resolveParams cfg).rrDepth ∧
    (Slg.resolveParams (Slg.toProperties cfg)).rrImportanceCap =
      (Slg.resolveParams cfg).rrImportanceCap ∧
    (Slg.toProperties cfg).renderEngineType =
      some (Slg.propGet cfg.renderEngineType "LIGHTCPU") ∧
    (Slg.resolveParams (Slg.toProperties cfg)).sqrtVarianceClampMaxValue = 0 := by
  refine ⟨rfl, rfl, rfl, rfl, ?_⟩
  simp [Slg.resolveParams, Slg.resolveSqrtVarianceClamp, Slg.toProperties, Slg.propGet]

/-- C1 counterexample: a configuration defining only
`path.clamping.variance.maxvalue = 2` resolves to clamp value `2`, but its
round trip through `ToProperties` drops the key and resolves to `0`, so
`ToProperties`/`FromProperties` are not inverses over the recognized-key
set. -/
theorem Slg.lightcpu_toProperties_roundtrip_counterexample :
    (Slg.resolveParams
        ⟨none, none, none, none, some 2, none, true⟩).sqrtVarianceClampMaxValue = 2 ∧
    (Slg.resolveParams (Slg.toProperties
        ⟨none, none, none, none, some 2, none, true⟩)).sqrtVarianceClampMaxValue = 0 ∧
    Slg.resolveParams (Slg.toProperties ⟨none, none, none, none, some 2, none, true⟩) ≠
      Slg.resolveParams ⟨none, none, none, none, some 2, none, true⟩ := by
  refine ⟨by decide, by decide, fun heq => ?_⟩
  have h2 := congrArg Slg.EngineParams.sqrtVarianceClampMaxValue heq
  norm_num [Slg.resolveParams, Slg.resolveSqrtVarianceClamp, Slg.toProperties,
    Slg.propGet] at h2

/-- C9: `InitFilm` registers both the per-pixel-normalized and the
per-screen-normalized radiance channels, enables the overlapped
screen-buffer-update flag, sets the radiance-group count to the scene's
light-group count, and initializes the film. -/
theorem Slg.lightcpu_initFilm_registration (rcfg : Slg.RenderConfigModel) (f : Slg.Film) :
    Slg.FilmChannel.radiancePerPixelNormalized ∈ (Slg.initFilm rcfg f).channels ∧
    Slg.FilmChannel.radiancePerScreenNormalized ∈ (Slg.initFilm rcfg f).channels ∧
    (Slg.initFilm rcfg f).overlappedScreenBufferUpdate = true ∧
    (Slg.initFilm rcfg f).radianceGroupCount = rcfg.lightGroupCount ∧
    (Slg.initFilm rcfg f).initialized = true := by
  refine ⟨?_, ?_, rfl, rfl, rfl⟩ <;>
    simp [Slg.initFilm, Slg.Film.addChannel, Slg.Film.setOverlappedScreenBufferUpdateFlag,
      Slg.Film.setRadianceGroupCount, Slg.Film.filmInit]

/-- C7: for every film and positive average luminance `Y`,
`CalcLinearToneMapScale` returns `1.25 / Y * (118/255)^gamma` where `gamma`
is the gamma value of the pipeline's gamma-correction stage when present
and `2.2` otherwise; in particular for `Y = 2` and gamma `2.2` it returns
`1.25 / 2 * (118/255)^2.2`. -/
theorem Slg.autolinear_scale_formula (f : Slg.Film) (Y : ℝ) (hY : 0 < Y) :
    Slg.calcLinearToneMapScale f Y =
      1.25 / Y * (118 / 255 : ℝ) ^
        (match f.imagePipeline with
         | none => (2.2 : ℝ)
         | some ip =>
           match ip.getGammaPlugin with
           | none => (2.2 : ℝ)
           | some g => g) ∧
    (Slg.getGammaCorrectionValue f = 2.2 → Y = 2 →
      Slg.calcLinearToneMapScale f Y = 1.25 / 2 * (118 / 255 : ℝ) ^ (2.2 : ℝ)) := by
  constructor
  · rfl
  · intro hg h2
    simp only [Slg.calcLinearToneMapScale, hg, h2]

/-- Witness for C7: a film whose pipeline carries a gamma-correction stage
with gamma `2.2`, at `Y = 2`. -/
theorem Slg.autolinear_scale_formula_witness :
    (0 : ℝ) < 2 ∧
    Slg.calcLinearToneMapScale
        ⟨[], false, 0, false, some ⟨[Slg.ImagePipelinePlugin.gammaCorrection 2.2]⟩, [], []⟩ 2 =
      1.25 / 2 * (118 / 255 : ℝ) ^ (2.2 : ℝ) :=
  ⟨by norm_num,
   (Slg.autolinear_scale_formula
      ⟨[], false, 0, false, some ⟨[Slg.ImagePipelinePlugin.gammaCorrection 2.2]⟩, [], []⟩ 2
      (by norm_num)).2 rfl rfl⟩

/-- C10: when the computed average luminance is non-positive — for example
when every pixel is masked out, or every pixel's luminance is non-positive
— `Apply` returns early and leaves the film unchanged. -/
theorem Slg.autolinear_apply_nonpositive_Y (f : Slg.Film) :
    (Slg.computeAutoLinearY f ≤ 0 → Slg.autoLinearApply f = f) ∧
    ((∀ i, Slg.filmMask f i = false) → Slg.autoLinearApply f = f) ∧
    ((∀ i, (Slg.filmPixel f i).lumY ≤ 0) → Slg.autoLinearApply f = f) := by
  have hbase : Slg.computeAutoLinearY f ≤ 0 → Slg.autoLinearApply f = f := by
    intro h
    simp [Slg.autoLinearApply, h]
  refine ⟨hbase, fun hm => ?_, fun hl => ?_⟩
  · apply hbase
    have hzero : (∑ i ∈ Finset.range (Slg.pixelCount f),
        if Slg.filmMask f i = true ∧ 0 < (Slg.filmPixel f i).lumY
        then (Slg.filmPixel f i).lumY else 0) = 0 := by
      apply Finset.sum_eq_zero
      intro i _
      simp [hm i]
    unfold Slg.computeAutoLinearY
    rw [hzero]
    simp
  · apply hbase
    have hzero : (∑ i ∈ Finset.range (Slg.pixelCount f),
        if Slg.filmMask f i = true ∧ 0 < (Slg.filmPixel f i).lumY
        then (Slg.filmPixel f i).lumY else 0) = 0 := by
      apply Finset.sum_eq_zero
      intro i _
      rw [if_neg]
      rintro ⟨-, hpos⟩
      exact absurd hpos (not_lt.mpr (hl i))
    unfold Slg.computeAutoLinearY
    rw [hzero]
    simp

/-- Witness for C10: a one-pixel film whose pixel is masked out is left
unchanged by `Apply`. -/
theorem Slg.autolinear_apply_nonpositive_Y_witness :
    Slg.autoLinearApply ⟨[], false, 0, false, none, [⟨1, 1, 1⟩], [false]⟩ =
      ⟨[], false, 0, false, none, [⟨1, 1, 1⟩], [false]⟩ :=
  (Slg.autolinear_apply_nonpositive_Y
      ⟨[], false, 0, false, none, [⟨1, 1, 1⟩], [false]⟩).2.1
    (by
      intro i
      match i with
      | 0 => rfl
      | n + 1 =>
        show List.getD [] n false = false
        simp)

/-- C8 (amended): `Apply` computes `Y` as the sum of the luminances of the
valid pixels (mask set and positive, finite luminance) divided by the
TOTAL pixel count — not by the number of valid pixels — and then, when
`Y` is positive, multiplies every pixel whose mask is set by the derived
scale and leaves every masked-out pixel unchanged. -/
theorem Slg.autolinear_apply_behavior (f : Slg.Film)
    (hY : 0 < Slg.computeAutoLinearY f) :
    Slg.computeAutoLinearY f =
      (∑ i ∈ Finset.range (Slg.pixelCount f),
          if Slg.validPixel f i then (Slg.filmPixel f i).lumY else 0) /
        (Slg.pixelCount f : ℝ) ∧
    Slg.pixelCount (Slg.autoLinearApply f) = Slg.pixelCount f ∧
    (∀ i, i < Slg.pixelCount f → Slg.filmMask f i = true →
      Slg.filmPixel (Slg.autoLinearApply f) i =
        Slg.Spectrum.scaleBy
          (Slg.calcLinearToneMapScale f (Slg.computeAutoLinearY f))
          (Slg.filmPixel f i)) ∧
    (∀ i, Slg.filmMask f i = false →
      Slg.filmPixel (Slg.autoLinearApply f) i = Slg.filmPixel f i) ∧
    (Slg.autoLinearApply f).frameBufferMask = f.frameBufferMask := by
  have hn : ¬ Slg.computeAutoLinearY f ≤ 0 := not_le.mpr hY
  refine ⟨?_, ?_, ?_, ?_, ?_⟩
  · unfold Slg.computeAutoLinearY
    refine congrArg (· / ((Slg.pixelCount f : ℝ)))
      (Finset.sum_congr rfl fun x _ => ?_)
    exact if_congr Iff.rfl rfl rfl
  · simp [Slg.autoLinearApply, hn, Slg.pixelCount]
  · intro i hi hm
    have hi2 : i < f.rgbTonemapped.length := hi
    simp [Slg.autoLinearApply, hn, Slg.filmPixel, Slg.pixelCount,
      List.getD_eq_getElem?_getD, List.getElem?_map, List.getElem?_range, hi2, hm]
  · intro i hm
    by_cases hi : i < Slg.pixelCount f
    · have hi2 : i < f.rgbTonemapped.length := hi
      simp [Slg.autoLinearApply, hn, Slg.filmPixel, Slg.pixelCount,
        List.getD_eq_getElem?_getD, List.getElem?_map, List.getElem?_range, hi2, hm]
    · have hlen : f.rgbTonemapped.length ≤ i := le_of_not_lt hi
      have hnone : f.rgbTonemapped[i]? = none := List.getElem?_eq_none hlen
      have hnone2 : (List.range f.rgbTonemapped.length)[i]? = (none : Option Nat) :=
        List.getElem?_eq_none (by simpa using hlen)
      simp [Slg.autoLinearApply, hn, Slg.filmPixel, Slg.pixelCount,
        List.getD_eq_getElem?_getD, List.getElem?_map, hnone, hnone2]
  · simp [Slg.autoLinearApply, hn]

/-- Witness for C8 at a one-pixel film with the mask set and luminance `2`:
`Y = 2 > 0`, the pixel is scaled, the mask is untouched. -/
theorem Slg.autolinear_apply_behavior_witness :
    0 < Slg.computeAutoLinearY ⟨[], false, 0, false, none, [⟨2, 2, 2⟩], [true]⟩ ∧
    Slg.filmPixel (Slg.autoLinearApply ⟨[], false, 0, false, none, [⟨2, 2, 2⟩], [true]⟩) 0 =
      Slg.Spectrum.scaleBy
        (Slg.calcLinearToneMapScale ⟨[], false, 0, false, none, [⟨2, 2, 2⟩], [true]⟩
          (Slg.computeAutoLinearY ⟨[], false, 0, false, none, [⟨2, 2, 2⟩], [true]⟩))
        (Slg.filmPixel ⟨[], false, 0, false, none, [⟨2, 2, 2⟩], [true]⟩ 0) ∧
    (Slg.autoLinearApply ⟨[], false, 0, false, none, [⟨2, 2, 2⟩], [true]⟩).frameBufferMask =
      [true] := by
  have hY : 0 < Slg.computeAutoLinearY ⟨[], false, 0, false, none, [⟨2, 2, 2⟩], [true]⟩ := by
    norm_num [Slg.computeAutoLinearY, Slg.pixelCount, Slg.filmMask, Slg.filmPixel,
      Slg.Spectrum.lumY, Finset.sum_range_succ]
  have h := Slg.autolinear_apply_behavior _ hY
  exact ⟨hY, h.2.2.1 0 (by norm_num [Slg.pixelCount]) rfl, h.2.2.2.2⟩

/-- C8 counterexample: in a two-pixel film whose first pixel is masked out
and whose second, valid pixel has luminance `2`, the `Y` computed by
`Apply` is `2 / 2 = 1` — the valid-luminance sum divided by the TOTAL pixel
count — while the average luminance over the valid pixels is `2 / 1 = 2`;
the two disagree, so `Apply` does not compute the average over valid
pixels. -/
theorem Slg.autolinear_avg_counterexample :
    Slg.computeAutoLinearY
        ⟨[], false, 0, false, none, [⟨0, 0, 0⟩, ⟨2, 2, 2⟩], [false, true]⟩ = 1 ∧
    Slg.specAvgValidLuminance
        ⟨[], false, 0, false, none, [⟨0, 0, 0⟩, ⟨2, 2, 2⟩], [false, true]⟩ = 2 ∧
    Slg.computeAutoLinearY
        ⟨[], false, 0, false, none, [⟨0, 0, 0⟩, ⟨2, 2, 2⟩], [false, true]⟩ ≠
      Slg.specAvgValidLuminance
        ⟨[], false, 0, false, none, [⟨0, 0, 0⟩, ⟨2, 2, 2⟩], [false, true]⟩ := by
  have hv0 : ¬ Slg.validPixel
      ⟨[], false, 0, false, none, [⟨0, 0, 0⟩, ⟨2, 2, 2⟩], [false, true]⟩ 0 := by
    simp [Slg.validPixel, Slg.filmMask]
  have hv1 : Slg.validPixel
      ⟨[], false, 0, false, none, [⟨0, 0, 0⟩, ⟨2, 2, 2⟩], [false, true]⟩ 1 := by
    refine ⟨rfl, ?_⟩
    norm_num [Slg.filmPixel, Slg.Spectrum.lumY]
  have h1 : Slg.computeAutoLinearY
      ⟨[], false, 0, false, none, [⟨0, 0, 0⟩, ⟨2, 2, 2⟩], [false, true]⟩ = 1 := by
    norm_num [Slg.computeAutoLinearY, Slg.pixelCount, Slg.filmMask, Slg.filmPixel,
      Slg.Spectrum.lumY, Finset.sum_range_succ]
  have h2 : Slg.specAvgValidLuminance
      ⟨[], false, 0, false, none, [⟨0, 0, 0⟩, ⟨2, 2, 2⟩], [false, true]⟩ = 2 := by
    norm_num [Slg.specAvgValidLuminance, Slg.pixelCount, Finset.sum_range_succ,
      Finset.range_succ, Finset.filter_insert, Finset.filter_singleton, hv0, hv1,
      Slg.filmPixel, Slg.Spectrum.lumY]
  refine ⟨h1, h2, ?_⟩
  rw [h1, h2]
  norm_num
